import Mathlib

/-!
Verification of the Google Places nearby-search client (`places_search.py`).

The embedding follows the source file:
* `FIELD_COSTS` and `BASE_NEARBY_SEARCH_COST` mirror the static price table.
* `level_fields` / `get_field_mask` mirror `PlacesSearcher._get_field_mask`,
  `calculate_request_cost` mirrors `PlacesSearcher.calculate_request_cost`
  (splitting the comma-joined mask and stripping the `places.` prefix).
* `searchLoop` / `search_nearby` mirror the pagination loop of
  `PlacesSearcher.search_nearby`, driven by a trace of fetch outcomes
  (`FetchResult`): each loop iteration consumes the next outcome; a
  `RequestException` (`FetchResult.err`) triggers `sys.exit(1)`.
* `buildRow` / `save_to_csv` mirror `PlacesSearcher.save_to_csv`, including
  the unbound `row` crash for unrecognized data levels, and `csvSerialize`
  mirrors the `csv` module serialization of the written rows.
* `run_program` mirrors the `main` sequencing: fetch, then export, then the
  cost rollup `cost_per_request * request_count`.

Dollar amounts are represented exactly as rationals; dynamic JSON values the
script renders into CSV cells are represented by their rendered strings.
-/

namespace PlacesSearch

/-- Executable model of Python `str.replace(old, rep)` on character lists:
scan left to right, replacing each (non-overlapping) occurrence of `old`.
The fuel argument bounds the recursion; each step consumes at least one
character, so fuel `s.length` is always enough. -/
def pyReplaceAux (old rep : List Char) : Nat → List Char → List Char
  | 0, s => s
  | fuel + 1, s =>
    match s with
    | [] => []
    | c :: cs =>
      if !old.isEmpty && old.isPrefixOf (c :: cs) then
        rep ++ pyReplaceAux old rep fuel ((c :: cs).drop old.length)
      else
        c :: pyReplaceAux old rep fuel cs

/-- Executable model of Python `str.replace(old, rep)` (for non-empty
`old`, which is the only way the script uses it). -/
def pyReplace (s old rep : String) : String :=
  String.mk (pyReplaceAux old.toList rep.toList s.length s.toList)

/-- Executable model of Python `str.split(sep)` for a one-character
separator (the script only splits on `","`). -/
def pySplit (s : String) (sep : Char) : List String :=
  (s.toList.splitOn sep).map (fun cs => String.mk cs)

/-- Price table of `places_search.py` (`FIELD_COSTS`): field name to price
increment per request, in USD. -/
def FIELD_COSTS : List (String × ℚ) := [
  ("id", 0),
  ("displayName", 0),
  ("formattedAddress", 0),
  ("location", 0),
  ("types", 0),
  ("primaryType", 0),
  ("primaryTypeDisplayName", 0),
  ("shortFormattedAddress", 0),
  ("googleMapsUri", 0),
  ("nationalPhoneNumber", 0.005),
  ("internationalPhoneNumber", 0.005),
  ("rating", 0.005),
  ("userRatingCount", 0.005),
  ("businessStatus", 0.005),
  ("priceLevel", 0.005),
  ("websiteUri", 0.005),
  ("regularOpeningHours", 0.005),
  ("utcOffsetMinutes", 0.005),
  ("currentOpeningHours", 0.007),
  ("currentSecondaryOpeningHours", 0.007),
  ("regularSecondaryOpeningHours", 0.007),
  ("editorialSummary", 0.007),
  ("reviews", 0.007),
  ("photos", 0.007)]

/-- Base price `BASE_NEARBY_SEARCH_COST`: $0.017 per Nearby Search request. -/
def BASE_NEARBY_SEARCH_COST : ℚ := 0.017

/-- The field list chosen by `_get_field_mask` for a data level, before the
comma join.  Unrecognized levels fall into the final `else` branch. -/
def level_fields (data_level : String) : List String :=
  if data_level = "id_only" then
    ["places.id", "places.displayName"]
  else if data_level = "basic" then
    ["places.id",
     "places.displayName",
     "places.formattedAddress",
     "places.location",
     "places.types",
     "places.primaryType",
     "places.googleMapsUri"]
  else if data_level = "advanced" then
    ["places.id",
     "places.displayName",
     "places.formattedAddress",
     "places.location",
     "places.types",
     "places.primaryType",
     "places.googleMapsUri",
     "places.rating",
     "places.userRatingCount",
     "places.nationalPhoneNumber",
     "places.internationalPhoneNumber",
     "places.websiteUri",
     "places.businessStatus"]
  else
    ["places.id", "places.displayName"]

/-- Model of `PlacesSearcher._get_field_mask`: the comma-separated field mask placed
in the `X-Goog-FieldMask` header. -/
def get_field_mask (data_level : String) : String :=
  String.intercalate "," (level_fields data_level)

/-- Model of `PlacesSearcher.calculate_request_cost`: parse the field mask back into
field names (splitting on commas and stripping the `places.` prefix) and add
each field's table price to the base request cost; names absent from the
table are skipped. -/
def calculate_request_cost (data_level : String) : ℚ :=
  let field_mask := get_field_mask data_level
  let fields := (pySplit field_mask ',').map (fun f => pyReplace f "places." "")
  fields.foldl
    (fun cost field =>
      match FIELD_COSTS.lookup field with
      | some c => cost + c
      | none => cost)
    BASE_NEARBY_SEARCH_COST

/-- The price the cost loop adds for one parsed field name: the table entry
when present, zero otherwise. -/
def field_price (field : String) : ℚ :=
  (FIELD_COSTS.lookup field).getD 0

theorem foldl_lookup_eq_sum (fs : List String) (init : ℚ) :
    fs.foldl
      (fun cost field =>
        match FIELD_COSTS.lookup field with
        | some c => cost + c
        | none => cost)
      init
    = init + (fs.map field_price).sum := by
  induction fs generalizing init with
  | nil => simp
  | cons f fs ih =>
    rw [List.foldl_cons, ih, List.map_cons, List.sum_cons]
    rcases h : FIELD_COSTS.lookup f with _ | c <;>
      simp [field_price, h, add_assoc]

theorem mask_roundtrip_id_only :
    pySplit (String.intercalate "," (level_fields "id_only")) ','
      = level_fields "id_only" := by decide

theorem mask_roundtrip_basic :
    pySplit (String.intercalate "," (level_fields "basic")) ','
      = level_fields "basic" := by decide

theorem mask_roundtrip_advanced :
    pySplit (String.intercalate "," (level_fields "advanced")) ','
      = level_fields "advanced" := by decide

theorem cost_eq (dl : String) :
    calculate_request_cost dl
      = BASE_NEARBY_SEARCH_COST
        + ((level_fields dl).map
            (fun f => field_price (pyReplace f "places." ""))).sum := by
  rw [calculate_request_cost, foldl_lookup_eq_sum, get_field_mask]
  by_cases h1 : dl = "id_only"
  · subst h1
    rw [mask_roundtrip_id_only, List.map_map]
    rfl
  by_cases h2 : dl = "basic"
  · subst h2
    rw [mask_roundtrip_basic, List.map_map]
    rfl
  by_cases h3 : dl = "advanced"
  · subst h3
    rw [mask_roundtrip_advanced, List.map_map]
    rfl
  · have hfall : level_fields dl = level_fields "id_only" := by
      rw [level_fields, if_neg h1, if_neg h2, if_neg h3]
      rfl
    rw [hfall, mask_roundtrip_id_only, List.map_map]
    rfl

/-- C2: for every Data Level, `calculate_request_cost` returns the base
request price plus the sum of the per-field price increments over exactly
that level's requested field set; the minimal (`id_only`) level yields
exactly the base price, and the advanced level yields the base price plus
one $0.005 advanced-field increment for each of the six advanced fields in
its set. -/
theorem cost_matches_data_level (dl : String) :
    calculate_request_cost dl
      = BASE_NEARBY_SEARCH_COST
        + ((level_fields dl).map
            (fun f => field_price (pyReplace f "places." ""))).sum
    ∧ calculate_request_cost "id_only" = BASE_NEARBY_SEARCH_COST
    ∧ calculate_request_cost "advanced"
        = BASE_NEARBY_SEARCH_COST + 6 * (0.005 : ℚ) := by
  refine ⟨cost_eq dl, ?_, ?_⟩
  · rw [cost_eq]
    have hs : (level_fields "id_only").map (fun f => pyReplace f "places." "")
        = ["id", "displayName"] := by decide
    rw [show (fun f => field_price (pyReplace f "places." ""))
          = (field_price ∘ fun f => pyReplace f "places." "") from rfl,
        ← List.map_map, hs]
    simp [field_price, FIELD_COSTS, List.lookup]
  · rw [cost_eq]
    have hs : (level_fields "advanced").map (fun f => pyReplace f "places." "")
        = ["id", "displayName", "formattedAddress", "location", "types",
           "primaryType", "googleMapsUri", "rating", "userRatingCount",
           "nationalPhoneNumber", "internationalPhoneNumber", "websiteUri",
           "businessStatus"] := by decide
    rw [show (fun f => field_price (pyReplace f "places." ""))
          = (field_price ∘ fun f => pyReplace f "places." "") from rfl,
        ← List.map_map, hs]
    simp [field_price, FIELD_COSTS, List.lookup]
    norm_num

/-! ## Place records

A Place Record is a loosely-structured JSON mapping; the script only reads
the fields below, always through `dict.get` with a default.  Every field is
therefore optional.  Scalar JSON values that the script passes straight to
the CSV writer (strings, numbers such as `rating` or `location.latitude`)
are represented by the string the writer renders them to. -/

/-- The nested `displayName` object: the script reads only its `text`
member. -/
structure DisplayName where
  text : Option String := none
deriving DecidableEq, Repr

/-- The nested `location` object: the script reads `latitude` and
`longitude`. -/
structure Location where
  latitude : Option String := none
  longitude : Option String := none
deriving DecidableEq, Repr

/-- A Place Record, restricted to the fields `save_to_csv` reads. -/
structure Place where
  id : Option String := none
  displayName : Option DisplayName := none
  formattedAddress : Option String := none
  location : Option Location := none
  types : Option (List String) := none
  primaryType : Option String := none
  googleMapsUri : Option String := none
  rating : Option String := none
  userRatingCount : Option String := none
  nationalPhoneNumber : Option String := none
  internationalPhoneNumber : Option String := none
  websiteUri : Option String := none
  businessStatus : Option String := none
deriving DecidableEq, Repr

/-! ## The pagination loop

`search_nearby` interacts with the remote service once per loop iteration.
The environment is modelled as a trace of fetch outcomes, consumed in
order: `FetchResult.ok places nextPageToken` stands for a response that
passes `raise_for_status` and parses, `FetchResult.err` for any
`requests.exceptions.RequestException` (connection error, non-success
status raised by `raise_for_status`, or timeout). -/

/-- Outcome of one `requests.post` call. -/
inductive FetchResult where
  | ok (places : List Place) (nextPageToken : Option String)
  | err
deriving DecidableEq, Repr

/-- Result of running the `search_nearby` loop against a trace.
`success` carries the accumulated place list, the final `request_count`,
and — for specification purposes — the `pageToken` value attached to each
issued request (`none` when the payload carries no token).  `exitFail c`
models `sys.exit(c)`.  `stuck` marks the (never exercised) case where the
trace is exhausted while the loop still wants another response. -/
inductive RunResult where
  | success (allPlaces : List Place) (requestCount : Nat)
      (tokensSent : List (Option String))
  | exitFail (code : Nat)
  | stuck
deriving DecidableEq, Repr

/-- One spin of the `while True` loop of `search_nearby`, carrying the
current `next_page_token`.  On a parsed response the request is counted,
its places are appended, and the loop stops exactly when the response has
no `nextPageToken`; on a `RequestException` the script exits with status
1. -/
def searchLoop : Option String → List FetchResult → RunResult
  | _, [] => .stuck
  | _, .err :: _ => .exitFail 1
  | tok, .ok ps ntok :: rest =>
    match ntok with
    | none => .success ps 1 [tok]
    | some t =>
      match searchLoop (some t) rest with
      | .success ps2 n toks => .success (ps ++ ps2) (n + 1) (tok :: toks)
      | .exitFail c => .exitFail c
      | .stuck => .stuck

/-- Model of `PlacesSearcher.search_nearby`: the loop starts with
`next_page_token = None`. -/
def search_nearby (responses : List FetchResult) : RunResult :=
  searchLoop none responses

/-- A trace of successfully parsed pages that all carry a continuation
token: page `i` returns record list `pages[i].1` and token `pages[i].2`. -/
def okPages (pages : List (List Place × String)) : List FetchResult :=
  pages.map (fun pt => FetchResult.ok pt.1 (some pt.2))

/-! ## The exporter -/

/-- The CSV header chosen by `save_to_csv` for a data level (its
`fieldnames` variable), including the defensive `else` fallback. -/
def fieldnames (data_level : String) : List String :=
  if data_level = "id_only" then
    ["place_id", "google_maps_url"]
  else if data_level = "basic" then
    ["place_id",
     "name",
     "address",
     "latitude",
     "longitude",
     "types",
     "primary_type",
     "google_maps_url"]
  else if data_level = "advanced" then
    ["place_id",
     "name",
     "address",
     "latitude",
     "longitude",
     "types",
     "primary_type",
     "google_maps_url",
     "rating",
     "user_ratings_total",
     "phone_national",
     "phone_international",
     "website",
     "business_status"]
  else
    ["place_id"]

/-- URL prefix of the synthesized `google_maps_url` value at the `id_only`
level (`https://www.google.com/maps/place/?q=place_id:` followed by the
place id). -/
def gmapsUrlBase : String := "https://www.google.com/maps/place/?q=place_id:"

/-- The row `save_to_csv` builds for one place, as the cell list in
`fieldnames` order.  The `if/elif` chain of the loop body has no `else`
branch: for an unrecognized data level no `row` is ever assigned and
`writer.writerow(row)` raises `UnboundLocalError`; that outcome is `none`.
Every `dict.get` default of the source appears as an `Option` default
here; the `types` list is joined with `", "`. -/
def buildRow (data_level : String) (place : Place) : Option (List String) :=
  if data_level = "id_only" then
    let place_id := place.id.getD ""
    some [place_id, gmapsUrlBase ++ place_id]
  else if data_level = "basic" then
    some [place.id.getD "",
          ((place.displayName.getD {}).text).getD "",
          place.formattedAddress.getD "",
          ((place.location.getD {}).latitude).getD "",
          ((place.location.getD {}).longitude).getD "",
          String.intercalate ", " (place.types.getD []),
          place.primaryType.getD "",
          place.googleMapsUri.getD ""]
  else if data_level = "advanced" then
    some [place.id.getD "",
          ((place.displayName.getD {}).text).getD "",
          place.formattedAddress.getD "",
          ((place.location.getD {}).latitude).getD "",
          ((place.location.getD {}).longitude).getD "",
          String.intercalate ", " (place.types.getD []),
          place.primaryType.getD "",
          place.googleMapsUri.getD "",
          place.rating.getD "",
          place.userRatingCount.getD "",
          place.nationalPhoneNumber.getD "",
          place.internationalPhoneNumber.getD "",
          place.websiteUri.getD "",
          place.businessStatus.getD ""]
  else
    none

/-- Outcome of `save_to_csv`.  `skipped`: the empty-list early return — no
file is opened.  `written rows`: the file contents (header first) on normal
completion.  `crashed rows`: an `UnboundLocalError` escaped the `with`
block after `rows` (header first) were already written to the file. -/
inductive ExportResult where
  | skipped
  | written (rows : List (List String))
  | crashed (rows : List (List String))
deriving DecidableEq, Repr

/-- The row-writing loop of `save_to_csv`: build and write one row per
place, stopping with an error when `buildRow` has no value. -/
def writeRows (data_level : String) : List Place → Except (List (List String)) (List (List String))
  | [] => .ok []
  | p :: ps =>
    match buildRow data_level p with
    | none => .error []
    | some r =>
      match writeRows data_level ps with
      | .ok rs => .ok (r :: rs)
      | .error rs => .error (r :: rs)

/-- Model of `PlacesSearcher.save_to_csv`: early return on an empty list, otherwise
write the header for the data level and then one row per place. -/
def save_to_csv (data_level : String) (places : List Place) : ExportResult :=
  if places.isEmpty then .skipped
  else
    match writeRows data_level places with
    | .ok rows => .written (fieldnames data_level :: rows)
    | .error rows => .crashed (fieldnames data_level :: rows)

/-! ## CSV byte serialization

`csv.writer` with default dialect: a cell is quoted iff it contains a
delimiter, quote char, or line break; quotes are doubled; rows end in
`\r\n`. -/

/-- Whether `csv` must quote this cell (default `QUOTE_MINIMAL` dialect). -/
def csvNeedsQuote (s : String) : Bool :=
  s.toList.any (fun c => c = ',' || c = '"' || c = '\r' || c = '\n')

/-- Serialize one cell. -/
def csvCell (s : String) : String :=
  if csvNeedsQuote s then "\"" ++ pyReplace s "\"" "\"\"" ++ "\"" else s

/-- Serialize one row. -/
def csvRow (row : List String) : String :=
  String.intercalate "," (row.map csvCell) ++ "\r\n"

/-- Serialize a whole file. -/
def csvSerialize (rows : List (List String)) : String :=
  String.join (rows.map csvRow)

/-- The bytes `save_to_csv` leaves on disk: `none` when no file is created
(the empty-list early return), otherwise the serialized rows — also in the
crash case, where the partially written file remains. -/
def exportBytes (data_level : String) (places : List Place) : Option String :=
  match save_to_csv data_level places with
  | .skipped => none
  | .written rows => some (csvSerialize rows)
  | .crashed rows => some (csvSerialize rows)

/-! ## The overall program -/

/-- Outcome of one `main` run after the search phase: `completed` holds
the export outcome and the request count used by the cost rollup;
`aborted c` is a `sys.exit(c)` raised inside `search_nearby`, which skips
the export entirely; `stuck` is inherited from `RunResult.stuck`. -/
inductive ProcResult where
  | completed (exported : ExportResult) (requestCount : Nat)
  | aborted (code : Nat)
  | stuck
deriving DecidableEq, Repr

/-- Model of `main` after argument handling: run the paginated search, then export
the accumulated places.  `sys.exit` inside the loop prevents the export
from ever running. -/
def run_program (data_level : String) (trace : List FetchResult) : ProcResult :=
  match search_nearby trace with
  | .success ps n _ => .completed (save_to_csv data_level ps) n
  | .exitFail c => .aborted c
  | .stuck => .stuck

/-- The data rows of the file a run leaves behind: `none` when no file was
written at all. -/
def exportedRows : ProcResult → Option (List (List String))
  | .completed (.written rows) _ => some rows
  | .completed (.crashed rows) _ => some rows
  | _ => none

/-! ## Pagination theorems -/

theorem searchLoop_okPages (pages : List (List Place × String))
    (lastPage : List Place) (rest : List FetchResult) (tok : Option String) :
    searchLoop tok (okPages pages ++ FetchResult.ok lastPage none :: rest)
      = .success ((pages.map Prod.fst).flatten ++ lastPage) (pages.length + 1)
          (tok :: pages.map (fun pt => some pt.2)) := by
  induction pages generalizing tok with
  | nil => simp [okPages, searchLoop]
  | cons pt pts ih =>
    simp only [okPages, List.map_cons, List.cons_append] at ih ⊢
    simp [searchLoop, ih]

/-- C1: when the first `pages.length` responses each carry a continuation
token and the next response is the first one without, the loop issues
exactly `pages.length + 1` requests and no more (it never consumes `rest`),
the payload token of the first request is absent and the payload token of
every later request is the token of the immediately prior response, and the
returned list is the concatenation of all pages' record lists in received
order. -/
theorem pagination_exact (pages : List (List Place × String))
    (lastPage : List Place) (rest : List FetchResult) :
    search_nearby (okPages pages ++ FetchResult.ok lastPage none :: rest)
      = .success ((pages.map Prod.fst).flatten ++ lastPage) (pages.length + 1)
          (none :: pages.map (fun pt => some pt.2)) :=
  searchLoop_okPages pages lastPage rest none

theorem searchLoop_okPages_err (pages : List (List Place × String))
    (rest : List FetchResult) (tok : Option String) :
    searchLoop tok (okPages pages ++ FetchResult.err :: rest) = .exitFail 1 := by
  induction pages generalizing tok with
  | nil => simp [okPages, searchLoop]
  | cons pt pts ih =>
    simp only [okPages, List.map_cons, List.cons_append] at ih ⊢
    simp [searchLoop, ih]

/-- C3: a `RequestException` on any request — here, after `pages.length`
successfully fetched pages — makes the process exit with status 1
immediately: no further request is issued (`rest` is never consumed), the
accumulated partial record list is discarded, the exporter never runs, and
no output file is written. -/
theorem transport_failure_aborts (data_level : String)
    (pages : List (List Place × String)) (rest : List FetchResult) :
    run_program data_level (okPages pages ++ FetchResult.err :: rest)
        = .aborted 1
    ∧ exportedRows
        (run_program data_level (okPages pages ++ FetchResult.err :: rest))
        = none := by
  have h := searchLoop_okPages_err pages rest none
  refine ⟨?_, ?_⟩ <;> simp [run_program, search_nearby, h, exportedRows]

/-- C9: whenever the loop returns normally, the returned request count is
at least 1 and is exactly the number of responses received with a success
status and parsed: the consumed prefix of the trace has length `n` and
consists solely of parsed (`ok`) responses — a request that fails at the
transport level is never counted (it would end the run via `exitFail`
instead). -/
theorem searchLoop_success_consumed (trace : List FetchResult) :
    ∀ (tok : Option String) (ps : List Place) (n : Nat)
      (toks : List (Option String)),
      searchLoop tok trace = .success ps n toks →
      1 ≤ n ∧ ∃ consumed rest, trace = consumed ++ rest ∧ consumed.length = n ∧
        ∀ r ∈ consumed, ∃ pl t, r = FetchResult.ok pl t := by
  induction trace with
  | nil =>
    intro tok ps n toks h
    simp [searchLoop] at h
  | cons r rs ih =>
    intro tok ps n toks h
    rcases r with ⟨pl, ntok⟩ | _
    · rcases ntok with _ | t
      · simp [searchLoop] at h
        obtain ⟨-, hn, -⟩ := h
        refine ⟨by omega, [FetchResult.ok pl none], rs, by simp, by simp [← hn], ?_⟩
        intro x hx
        rw [List.mem_singleton] at hx
        exact ⟨pl, none, hx⟩
      · simp only [searchLoop] at h
        cases hx : searchLoop (some t) rs with
        | success ps2 n2 toks2 =>
          rw [hx] at h
          simp only [RunResult.success.injEq] at h
          obtain ⟨-, hn, -⟩ := h
          obtain ⟨hn2, consumed, rest, hsplit, hlen, hmem⟩ :=
            ih (some t) ps2 n2 toks2 hx
          refine ⟨by omega, FetchResult.ok pl (some t) :: consumed, rest,
            by simp [hsplit], by simp [hlen]; omega, ?_⟩
          intro x hx2
          rcases List.mem_cons.mp hx2 with hx2 | hx2
          · exact ⟨pl, some t, hx2⟩
          · exact hmem x hx2
        | exitFail c =>
          rw [hx] at h
          simp at h
        | stuck =>
          rw [hx] at h
          simp at h
    · simp [searchLoop] at h

/-- C9: whenever the loop returns normally, the returned request count is
at least 1 and is exactly the number of responses received with a success
status and parsed: the consumed prefix of the trace has length `n` and
consists solely of parsed (`ok`) responses — a request that fails at the
transport level is never counted (it would end the run via `exitFail`
instead), so the run-summary multiplication
`cost_per_request * request_count` counts only successful requests. -/
theorem request_count_counts_successes (trace : List FetchResult)
    (ps : List Place) (n : Nat) (toks : List (Option String))
    (h : search_nearby trace = .success ps n toks) :
    1 ≤ n ∧ ∃ consumed rest, trace = consumed ++ rest ∧ consumed.length = n ∧
      ∀ r ∈ consumed, ∃ pl t, r = FetchResult.ok pl t :=
  searchLoop_success_consumed trace none ps n toks h

/-- C9 witness: the general theorem applied to the one-page trace. -/
theorem request_count_counts_successes_witness :
    1 ≤ 1 ∧ ∃ consumed rest,
      ([FetchResult.ok [] none] : List FetchResult) = consumed ++ rest ∧
      consumed.length = 1 ∧
      ∀ r ∈ consumed, ∃ pl t, r = FetchResult.ok pl t :=
  request_count_counts_successes [FetchResult.ok [] none] [] 1 [none] rfl

/-- C7: `save_to_csv` on an empty record list returns before opening the
output file: no file is created and no row-building runs. -/
theorem empty_export_short_circuits (data_level : String) :
    save_to_csv data_level [] = .skipped
    ∧ exportBytes data_level [] = none := ⟨rfl, rfl⟩

/-! ## Exporter theorems -/

theorem buildRow_isSome (dl : String)
    (hdl : dl = "id_only" ∨ dl = "basic" ∨ dl = "advanced") (p : Place) :
    ∃ row, buildRow dl p = some row := by
  rcases hdl with h | h | h <;> subst h <;> simp [buildRow]

theorem writeRows_ok (dl : String)
    (hdl : dl = "id_only" ∨ dl = "basic" ∨ dl = "advanced")
    (places : List Place) :
    writeRows dl places
      = .ok (places.map (fun p => (buildRow dl p).getD [])) := by
  induction places with
  | nil => simp [writeRows]
  | cons p ps ih =>
    obtain ⟨row, hrow⟩ := buildRow_isSome dl hdl p
    simp [writeRows, hrow, ih]

/-- C8: for a recognized data level, the exporter's output is a pure
function of the data level and the record list — the header is the fixed
column list of the level, the data rows are the records' rows in list
order, and the serialized bytes are determined by those rows (so re-running
on an identical record list is byte-identical; the `types` join delimiter
`", "` is fixed inside `buildRow`). -/
theorem export_deterministic (data_level : String) (places : List Place)
    (hne : places ≠ [])
    (hdl : data_level = "id_only" ∨ data_level = "basic"
      ∨ data_level = "advanced") :
    save_to_csv data_level places
        = .written (fieldnames data_level
            :: places.map (fun p => (buildRow data_level p).getD []))
    ∧ exportBytes data_level places
        = some (csvSerialize (fieldnames data_level
            :: places.map (fun p => (buildRow data_level p).getD []))) := by
  have hw := writeRows_ok data_level hdl places
  have h1 : save_to_csv data_level places
      = .written (fieldnames data_level
          :: places.map (fun p => (buildRow data_level p).getD [])) := by
    cases places with
    | nil => exact absurd rfl hne
    | cons p ps => simp [save_to_csv, hw]
  exact ⟨h1, by simp [exportBytes, h1]⟩

/-- C8 witness: the theorem applied to the `basic` level and a one-record
list. -/
theorem export_deterministic_witness :
    save_to_csv "basic" [{}]
        = .written (fieldnames "basic"
            :: [({} : Place)].map (fun p => (buildRow "basic" p).getD []))
    ∧ exportBytes "basic" [{}]
        = some (csvSerialize (fieldnames "basic"
            :: [({} : Place)].map (fun p => (buildRow "basic" p).getD []))) :=
  export_deterministic "basic" [{}] (List.cons_ne_nil _ _)
    (Or.inr (Or.inl rfl))

/-- C6: for every recognized data level, every record yields a row (no
error is possible), the row has one cell per column, and every missing
field — including a missing nested display-name object or location
object — shows up as the empty string in that field's cell. -/
theorem missing_fields_become_empty (data_level : String) (p : Place)
    (hdl : data_level = "id_only" ∨ data_level = "basic"
      ∨ data_level = "advanced") :
    ∃ row, buildRow data_level p = some row
      ∧ save_to_csv data_level [p] = .written [fieldnames data_level, row]
      ∧ row.length = (fieldnames data_level).length
      ∧ (p.id = none → row.get? 0 = some "")
      ∧ (data_level ≠ "id_only" → p.displayName = none →
          row.get? 1 = some "")
      ∧ (data_level ≠ "id_only" → p.formattedAddress = none →
          row.get? 2 = some "")
      ∧ (data_level ≠ "id_only" → p.location = none →
          row.get? 3 = some "" ∧ row.get? 4 = some "")
      ∧ (data_level ≠ "id_only" → p.types = none → row.get? 5 = some "")
      ∧ (data_level ≠ "id_only" → p.primaryType = none →
          row.get? 6 = some "")
      ∧ (data_level = "advanced" →
          (p.rating = none → row.get? 8 = some "")
          ∧ (p.userRatingCount = none → row.get? 9 = some "")
          ∧ (p.nationalPhoneNumber = none → row.get? 10 = some "")
          ∧ (p.internationalPhoneNumber = none → row.get? 11 = some "")
          ∧ (p.websiteUri = none → row.get? 12 = some "")
          ∧ (p.businessStatus = none → row.get? 13 = some "")) := by
  rcases hdl with h | h | h <;> subst h
  · refine ⟨_, rfl, by simp [save_to_csv, writeRows, buildRow, fieldnames],
      by simp [buildRow, fieldnames], ?_, ?_, ?_, ?_, ?_, ?_, ?_⟩
    · intro h; simp [buildRow, h]
    all_goals intro h; simp at h
  · refine ⟨_, rfl, by simp [save_to_csv, writeRows, buildRow, fieldnames],
      by simp [buildRow, fieldnames], ?_, ?_, ?_, ?_, ?_, ?_, ?_⟩
    · intro h; simp [buildRow, h]
    · intro _ h; simp [buildRow, h]
    · intro _ h; simp [buildRow, h]
    · intro _ h; simp [buildRow, h]
    · intro _ h; simp [buildRow, h]; decide
    · intro _ h; simp [buildRow, h]
    · intro h; simp at h
  · refine ⟨_, rfl, by simp [save_to_csv, writeRows, buildRow, fieldnames],
      by simp [buildRow, fieldnames], ?_, ?_, ?_, ?_, ?_, ?_, ?_⟩
    · intro h; simp [buildRow, h]
    · intro _ h; simp [buildRow, h]
    · intro _ h; simp [buildRow, h]
    · intro _ h; simp [buildRow, h]
    · intro _ h; simp [buildRow, h]; decide
    · intro _ h; simp [buildRow, h]
    · intro _
      refine ⟨?_, ?_, ?_, ?_, ?_, ?_⟩ <;> (intro h; simp [buildRow, h])

/-- C6 witness: the theorem applied to the `basic` level and the record
with every field absent. -/
theorem missing_fields_become_empty_witness :
    ∃ row, buildRow "basic" {} = some row
      ∧ save_to_csv "basic" [{}] = .written [fieldnames "basic", row]
      ∧ row.length = (fieldnames "basic").length
      ∧ (({} : Place).id = none → row.get? 0 = some "")
      ∧ ("basic" ≠ "id_only" → ({} : Place).displayName = none →
          row.get? 1 = some "")
      ∧ ("basic" ≠ "id_only" → ({} : Place).formattedAddress = none →
          row.get? 2 = some "")
      ∧ ("basic" ≠ "id_only" → ({} : Place).location = none →
          row.get? 3 = some "" ∧ row.get? 4 = some "")
      ∧ ("basic" ≠ "id_only" → ({} : Place).types = none →
          row.get? 5 = some "")
      ∧ ("basic" ≠ "id_only" → ({} : Place).primaryType = none →
          row.get? 6 = some "")
      ∧ ("basic" = "advanced" →
          (({} : Place).rating = none → row.get? 8 = some "")
          ∧ (({} : Place).userRatingCount = none → row.get? 9 = some "")
          ∧ (({} : Place).nationalPhoneNumber = none → row.get? 10 = some "")
          ∧ (({} : Place).internationalPhoneNumber = none →
              row.get? 11 = some "")
          ∧ (({} : Place).websiteUri = none → row.get? 12 = some "")
          ∧ (({} : Place).businessStatus = none → row.get? 13 = some "")) :=
  missing_fields_become_empty "basic" {} (Or.inr (Or.inl rfl))

/-- C5 counterexample: at the `basic` data level, a record that supplies an
identifier but no `googleMapsUri` gets the empty string in the
`google_maps_url` cell (index 7) — not a value synthesized from the
identifier, which would be `gmapsUrlBase ++ "abc"`. -/
theorem maps_url_not_synthesized :
    buildRow "basic" { id := some "abc" }
      = some ["abc", "", "", "", "", "", "", ""]
    ∧ ("" : String) ≠ gmapsUrlBase ++ "abc" := by
  exact ⟨by decide, by decide⟩

/-- C5 amended: the map-link cell is synthesized from the record identifier
only at the `id_only` level (where it always is); at the `basic` and
`advanced` levels the cell is the record's own `googleMapsUri` value, and
is the empty string — not a synthesized link — when that field is not
supplied. -/
theorem maps_url_policy (p : Place) :
    ((buildRow "id_only" p).getD []).get? 1
        = some (gmapsUrlBase ++ p.id.getD "")
    ∧ (p.googleMapsUri = none →
        ((buildRow "basic" p).getD []).get? 7 = some ""
        ∧ ((buildRow "advanced" p).getD []).get? 7 = some "")
    ∧ (∀ uri, p.googleMapsUri = some uri →
        ((buildRow "basic" p).getD []).get? 7 = some uri
        ∧ ((buildRow "advanced" p).getD []).get? 7 = some uri) := by
  refine ⟨rfl, ?_, ?_⟩
  · intro h
    exact ⟨by simp [buildRow, h], by simp [buildRow, h]⟩
  · intro uri h
    exact ⟨by simp [buildRow, h], by simp [buildRow, h]⟩

/-- C5 amended witness: a record with a supplied `googleMapsUri` keeps it
verbatim at the `basic` level. -/
theorem maps_url_policy_witness :
    ((buildRow "basic"
        ({ id := some "a", googleMapsUri := some "u" } : Place)).getD
      []).get? 7 = some "u" :=
  ((maps_url_policy { id := some "a", googleMapsUri := some "u" }).2.2
    "u" rfl).1

/-- C10: at the `id_only` level the `google_maps_url` cell is always
`gmapsUrlBase ++ id`: any supplied `googleMapsUri` is ignored (changing it
does not change the row), and a record with no identifier gets the fixed
prefix with an empty identifier appended — which is not the empty
string. -/
theorem id_only_url_always_synthesized (p : Place) :
    ((buildRow "id_only" p).getD []).get? 1
        = some (gmapsUrlBase ++ p.id.getD "")
    ∧ (∀ uri, buildRow "id_only" { p with googleMapsUri := uri }
        = buildRow "id_only" p)
    ∧ (p.id = none →
        ((buildRow "id_only" p).getD []).get? 1 = some (gmapsUrlBase ++ "")
        ∧ gmapsUrlBase ++ "" ≠ "") := by
  refine ⟨rfl, fun uri => rfl, fun h => ⟨by simp [buildRow, h], by decide⟩⟩

/-- C10 witness: the theorem applied to a record with no fields, whose id
is absent. -/
theorem id_only_url_witness :
    ((buildRow "id_only" ({} : Place)).getD []).get? 1
        = some (gmapsUrlBase ++ "")
    ∧ gmapsUrlBase ++ "" ≠ "" :=
  (id_only_url_always_synthesized {}).2.2 rfl

/-- C4 evaluated at its failing input: for the unrecognized data level
`"custom"` the request side does fall back to the minimal field mask, but
`save_to_csv` on a one-record list writes only the fallback header
`["place_id"]` and then crashes — the `if/elif` chain of the row loop has
no `else`, so `row` is never assigned and `writer.writerow(row)` raises
`UnboundLocalError` — instead of writing one row per record. -/
theorem unknown_level_export_crashes :
    get_field_mask "custom" = get_field_mask "id_only"
    ∧ save_to_csv "custom" [{ id := some "abc" }]
        = .crashed [["place_id"]] := by
  exact ⟨rfl, rfl⟩

end PlacesSearch
